import Mathlib

/-!
Shallow embedding of the Voar social-posting application (src/app.py and
src/config.py): data model, configuration, the five route handlers, and a
statement-trace model of each handler used for the connection-scope
property. Library functions from outside the repository (the password hash,
its verifier, and the werkzeug filename sanitizer) are taken as function
parameters of the handlers that call them.
-/

namespace Voar

/-- A row of the users table (app.py lines 27-32): id, username, email,
password_hash, created_at. -/
structure User where
  id : Nat
  username : String
  email : String
  password_hash : String
  created_at : Nat
deriving DecidableEq

/-- A row of the posts table (app.py lines 35-41): id, user_id, content,
optional media_filename, created_at. -/
structure Post where
  id : Nat
  user_id : Nat
  content : String
  media_filename : Option String
  created_at : Nat
deriving DecidableEq

/-- The relational store: the two tables plus the AUTOINCREMENT counters. -/
structure DB where
  users : List User
  posts : List Post
  nextUserId : Nat
  nextPostId : Nat
deriving DecidableEq

/-- The signed session cookie: the two keys the application writes
(user_id, username; `none` models absence of the key) and any other keys
the session may carry. -/
structure Session where
  user_id : Option Nat
  username : Option String
  extra : List (String × String)
deriving DecidableEq

/-- HTTP method of a request to a route that accepts both. -/
inductive Method where
  | GET
  | POST
deriving DecidableEq

/-- What a handler returns to the web layer: a redirect to a named route or
a rendered template. -/
inductive Response where
  | redirect (target : String)
  | render (template : String)
deriving DecidableEq

/-- The default secret literal that appears both in app.py line 9 and in
config.py line 4. -/
def defaultSecretKey : String := "your-secret-key-change-this-in-production"

/-- config.py line 4: `os.environ.get(..) or default`; an unset variable or
the empty string (falsy in Python) falls back to the default. -/
def Config_SECRET_KEY (env : String → Option String) : String :=
  match env "SECRET_KEY" with
  | some v => if v == "" then defaultSecretKey else v
  | none => defaultSecretKey

/-- app.py line 9: `app.secret_key = 'your-secret-key-change-this-in-production'`.
The assignment is a string literal; app.py does not import config.py and
reads no environment variable. -/
def app_secret_key : String := "your-secret-key-change-this-in-production"

/-- app.py line 17: the extension allow-list. -/
def ALLOWED_EXTENSIONS : List String :=
  ["png", "jpg", "jpeg", "gif", "mp4", "avi", "mov", "webm"]

/-- `filename.rsplit(".", 1)[1].lower()` for a filename containing a dot:
the characters after the last dot, lowercased. -/
def extPart (filename : String) : String :=
  String.mk (((filename.toList.reverse.takeWhile (fun c => c != '.')).reverse).map Char.toLower)

/-- app.py lines 19-20:
`return "." in filename and filename.rsplit(".", 1)[1].lower() in ALLOWED_EXTENSIONS`. -/
def allowed_file (filename : String) : Bool :=
  filename.toList.contains '.' && ALLOWED_EXTENSIONS.contains (extPart filename)

/-- The components `datetime.now()` supplies to strftime. Python datetime
years always lie in 1..9999. -/
structure DateTime where
  year : Nat
  month : Nat
  day : Nat
  hour : Nat
  minute : Nat
  second : Nat
deriving DecidableEq

/-- The character of a decimal digit: `digitChar n` is the digit of
`n % 10`. -/
def digitChar (n : Nat) : Char := Char.ofNat (48 + n % 10)

/-- Two-digit zero-padded decimal rendering (`%m`, `%d`, `%H`, `%M`, `%S`). -/
def pad2 (n : Nat) : List Char := [digitChar (n / 10), digitChar n]

/-- Four-digit zero-padded decimal rendering (`%Y`; Python datetime years
never exceed 9999). -/
def pad4 (n : Nat) : List Char :=
  [digitChar (n / 1000), digitChar (n / 100), digitChar (n / 10), digitChar n]

/-- app.py line 138: `datetime.now().strftime("%Y%m%d_%H%M%S")`. -/
def strftime_timestamp (t : DateTime) : String :=
  String.mk (pad4 t.year ++ pad2 t.month ++ pad2 t.day ++
    '_' :: (pad2 t.hour ++ pad2 t.minute ++ pad2 t.second))

/-- A string of the exact shape YYYYMMDD_HHMMSS: fifteen characters, an
underscore at index 8, decimal digits everywhere else. -/
def timestampShape (s : String) : Prop :=
  s.toList.length = 15 ∧ s.toList.getD 8 ' ' = '_' ∧
    ∀ i, i < 15 → i ≠ 8 → (s.toList.getD i ' ').isDigit = true

/-- The SELECT of app.py line 76: some row has the given username or the
given email. -/
def userExists (db : DB) (username email : String) : Bool :=
  db.users.any (fun u => u.username == username || u.email == email)

/-- What the register handler returns: the database after the request and
the response with its flash messages. -/
structure RegisterResult where
  db : DB
  response : Response
  flashes : List String
deriving DecidableEq

/-- app.py lines 65-93. `hash` stands for werkzeug generate_password_hash;
`now` is the CURRENT_TIMESTAMP default of the inserted row. On a duplicate
username or email the form is re-rendered with a flash and no row is
inserted; otherwise the new user row is appended and the handler redirects
to login. -/
def register (hash : String → String) (now : Nat) (db : DB) (method : Method)
    (username email password : String) : RegisterResult :=
  match method with
  | .GET => ⟨db, .render "register.html", []⟩
  | .POST =>
    if userExists db username email then
      ⟨db, .render "register.html", ["Username or email already exists!"]⟩
    else
      ⟨{ db with
           users := db.users ++ [⟨db.nextUserId, username, email, hash password, now⟩],
           nextUserId := db.nextUserId + 1 },
       .redirect "login", ["Registration successful! Please login."]⟩

/-- What the login handler returns. -/
structure LoginResult where
  db : DB
  sess : Session
  response : Response
  flashes : List String
deriving DecidableEq

/-- app.py lines 95-116. `check` stands for werkzeug check_password_hash.
The SELECT by username with fetchone is the first matching row; on a hit
with a verifying password the session keys user_id and username are set and
the handler redirects to the feed, otherwise the form is re-rendered with
the invalid-credentials flash. -/
def login (check : String → String → Bool) (db : DB) (sess : Session)
    (method : Method) (username password : String) : LoginResult :=
  match method with
  | .GET => ⟨db, sess, .render "login.html", []⟩
  | .POST =>
    match db.users.find? (fun u => u.username == username) with
    | some u =>
      if check u.password_hash password then
        ⟨db, { sess with user_id := some u.id, username := some username },
         .redirect "index", ["Login successful!"]⟩
      else
        ⟨db, sess, .render "login.html", ["Invalid username or password!"]⟩
    | none => ⟨db, sess, .render "login.html", ["Invalid username or password!"]⟩

/-- One row of the feed query of app.py lines 55-58: post fields joined
with the username of the author. -/
structure PostView where
  post_id : Nat
  content : String
  media_filename : Option String
  created_at : Nat
  username : String
deriving DecidableEq

/-- The inner join `FROM posts p JOIN users u ON p.user_id = u.id`: one row
per matching pair. -/
def joinRows (db : DB) : List PostView :=
  db.posts.flatMap (fun p =>
    (db.users.filter (fun u => u.id == p.user_id)).map (fun u =>
      ⟨p.id, p.content, p.media_filename, p.created_at, u.username⟩))

/-- The ORDER BY relation: created_at descending. -/
def feedLE (a b : PostView) : Prop := b.created_at ≤ a.created_at

instance : DecidableRel feedLE := fun a b => Nat.decLe b.created_at a.created_at

instance : IsTotal PostView feedLE := ⟨fun a b => Nat.le_total b.created_at a.created_at⟩

instance : IsTrans PostView feedLE := ⟨fun _ _ _ h1 h2 => Nat.le_trans h2 h1⟩

/-- The feed query of app.py lines 55-59: joined rows ordered by created_at
descending. -/
def list_feed (db : DB) : List PostView := List.insertionSort feedLE (joinRows db)

/-- What the index handler returns: the response and the sequence of rows
it renders. -/
structure IndexResult where
  response : Response
  rendered : List PostView
deriving DecidableEq

/-- app.py lines 46-63: redirect to login when user_id is not in the
session, otherwise render the feed. -/
def index (db : DB) (sess : Session) : IndexResult :=
  match sess.user_id with
  | none => ⟨.redirect "login", []⟩
  | some _ => ⟨.render "index.html", list_feed db⟩

/-- A file part of a multipart submission: its declared filename. -/
structure Upload where
  filename : String
deriving DecidableEq

/-- The externally visible effects of create_post, in the order the handler
performs them. -/
inductive Event where
  | fileSave (name : String)
  | insertPost (user_id : Nat) (content : String) (media_filename : Option String)
deriving DecidableEq

/-- What the create_post handler returns: database, upload folder contents,
response, flashes, and the effect trace in execution order. -/
structure CreatePostResult where
  db : DB
  storage : List String
  response : Response
  flashes : List String
  events : List Event
deriving DecidableEq

/-- app.py lines 124-154. `sanitize` stands for werkzeug secure_filename;
`media` models `request.files.get("media")`. A file whose declared filename
is non-empty and passes allowed_file is saved under the timestamped
sanitized name before the post row is inserted; any other upload is
silently dropped and the post is inserted with media_filename null. -/
def create_post (sanitize : String → String) (now : DateTime) (nowTs : Nat)
    (db : DB) (storage : List String) (sess : Session) (method : Method)
    (content : String) (media : Option Upload) : CreatePostResult :=
  match sess.user_id with
  | none => ⟨db, storage, .redirect "login", [], []⟩
  | some uid =>
    match method with
    | .GET => ⟨db, storage, .render "create_post.html", [], []⟩
    | .POST =>
      let media_filename : Option String :=
        match media with
        | none => none
        | some file =>
          if file.filename != "" && allowed_file file.filename then
            some (strftime_timestamp now ++ "_" ++ sanitize file.filename)
          else none
      ⟨{ db with
           posts := db.posts ++ [⟨db.nextPostId, uid, content, media_filename, nowTs⟩],
           nextPostId := db.nextPostId + 1 },
       (match media_filename with
        | some name => storage ++ [name]
        | none => storage),
       .redirect "index", ["Post created successfully!"],
       (match media_filename with
        | some name => [Event.fileSave name]
        | none => []) ++ [Event.insertPost uid content media_filename]⟩

/-- The database-facing statements a handler body runs, in source order. -/
inductive Stmt where
  | connect
  | execQuery
  | execInsert
  | commit
  | close
  | respond
deriving DecidableEq

/-- One run of a handler body: the statements that actually executed, and
whether a statement raised (aborting the rest of the body). -/
structure Exec where
  executed : List Stmt
  raised : Bool
deriving DecidableEq

/-- Run a statement list under an exception oracle: a statement for which
the oracle answers true raises, and no later statement of the body runs
(the handlers use no try or finally, app.py lines 65-154). -/
def runStmts (raises : Stmt → Bool) : List Stmt → Exec
  | [] => ⟨[], false⟩
  | s :: rest =>
    if raises s then ⟨[], true⟩
    else
      let e := runStmts raises rest
      ⟨s :: e.executed, e.raised⟩

/-- Statement order of the register POST body, app.py lines 72-91: connect,
the duplicate-check SELECT, then either close and re-render (duplicate) or
INSERT, commit, close, redirect. -/
def registerStmts (dup : Bool) : List Stmt :=
  if dup then [.connect, .execQuery, .close, .respond]
  else [.connect, .execQuery, .execInsert, .commit, .close, .respond]

/-- Statement order of the index body, app.py lines 51-63. -/
def indexStmts : List Stmt := [.connect, .execQuery, .close, .respond]

/-- Statement order of the login POST body, app.py lines 101-116. -/
def loginStmts : List Stmt := [.connect, .execQuery, .close, .respond]

/-- Statement order of the create_post POST database section, app.py lines
144-152. -/
def createPostStmts : List Stmt := [.connect, .execInsert, .commit, .close, .respond]

/-- A handler body releases its connection in scope: run with no raising
statement, it finishes without raising and closes the connection before
responding. -/
def scopedClose (stmts : List Stmt) : Prop :=
  (runStmts (fun _ => false) stmts).raised = false ∧
    Stmt.close ∈ (runStmts (fun _ => false) stmts).executed ∧
    (runStmts (fun _ => false) stmts).executed.indexOf Stmt.close <
      (runStmts (fun _ => false) stmts).executed.indexOf Stmt.respond

/-- A filename accepted by allowed_file is non-empty: the empty string
contains no dot. -/
theorem allowed_file_ne_empty {fn : String} (h : allowed_file fn = true) :
    (fn != "") = true := by
  cases heq : fn == "" with
  | false => simp [bne, heq]
  | true =>
    have hfn : fn = "" := eq_of_beq heq
    subst hfn
    exact absurd h (by decide)

/-- Claim C1: a registration whose username or email is already present
re-renders the registration form with the duplicate flash message and
leaves the database, its users table included, unchanged. -/
theorem register_duplicate_unchanged (hash : String → String) (now : Nat)
    (db : DB) (username email password : String)
    (hdup : userExists db username email = true) :
    (register hash now db .POST username email password).db = db ∧
    (register hash now db .POST username email password).response = .render "register.html" ∧
    (register hash now db .POST username email password).flashes =
      ["Username or email already exists!"] := by
  simp [register, hdup]

theorem register_duplicate_unchanged_witness :
    userExists ⟨[⟨1, "bob", "bob@x.io", "h1", 0⟩], [], 2, 1⟩ "bob" "new@x.io" = true ∧
    ((register (fun s => s) 5 ⟨[⟨1, "bob", "bob@x.io", "h1", 0⟩], [], 2, 1⟩ .POST
        "bob" "new@x.io" "pw").db = ⟨[⟨1, "bob", "bob@x.io", "h1", 0⟩], [], 2, 1⟩ ∧
      (register (fun s => s) 5 ⟨[⟨1, "bob", "bob@x.io", "h1", 0⟩], [], 2, 1⟩ .POST
        "bob" "new@x.io" "pw").response = .render "register.html" ∧
      (register (fun s => s) 5 ⟨[⟨1, "bob", "bob@x.io", "h1", 0⟩], [], 2, 1⟩ .POST
        "bob" "new@x.io" "pw").flashes = ["Username or email already exists!"]) :=
  ⟨by decide,
   register_duplicate_unchanged (fun s => s) 5 ⟨[⟨1, "bob", "bob@x.io", "h1", 0⟩], [], 2, 1⟩
     "bob" "new@x.io" "pw" (by decide)⟩

/-- Claim C4: a request to the index or create_post route without user_id
in the session gets a redirect to the login route, and create_post leaves
the database (the posts table included) and the upload folder unchanged. -/
theorem unauthenticated_redirects (sanitize : String → String) (now : DateTime)
    (nowTs : Nat) (db : DB) (storage : List String) (sess : Session)
    (method : Method) (content : String) (media : Option Upload)
    (hanon : sess.user_id = none) :
    (index db sess).response = .redirect "login" ∧
    (create_post sanitize now nowTs db storage sess method content media).response =
      .redirect "login" ∧
    (create_post sanitize now nowTs db storage sess method content media).db = db ∧
    (create_post sanitize now nowTs db storage sess method content media).storage = storage := by
  simp [index, create_post, hanon]

theorem unauthenticated_redirects_witness :
    (⟨none, none, []⟩ : Session).user_id = none ∧
    ((index ⟨[], [], 1, 1⟩ ⟨none, none, []⟩).response = .redirect "login" ∧
      (create_post (fun s => s) ⟨2024, 1, 2, 3, 4, 5⟩ 9 ⟨[], [], 1, 1⟩ []
        ⟨none, none, []⟩ .POST "x" none).response = .redirect "login" ∧
      (create_post (fun s => s) ⟨2024, 1, 2, 3, 4, 5⟩ 9 ⟨[], [], 1, 1⟩ []
        ⟨none, none, []⟩ .POST "x" none).db = ⟨[], [], 1, 1⟩ ∧
      (create_post (fun s => s) ⟨2024, 1, 2, 3, 4, 5⟩ 9 ⟨[], [], 1, 1⟩ []
        ⟨none, none, []⟩ .POST "x" none).storage = []) :=
  ⟨rfl,
   unauthenticated_redirects (fun s => s) ⟨2024, 1, 2, 3, 4, 5⟩ 9 ⟨[], [], 1, 1⟩ []
     ⟨none, none, []⟩ .POST "x" none rfl⟩

/-- Claim C9: an authenticated POST to create_post appends a post row with
exactly the submitted content, the empty string included, and redirects to
the feed: no server-side validation rejects empty content. -/
theorem create_post_accepts_any_content (sanitize : String → String)
    (now : DateTime) (nowTs : Nat) (db : DB) (storage : List String)
    (sess : Session) (uid : Nat) (content : String)
    (hauth : sess.user_id = some uid) :
    (create_post sanitize now nowTs db storage sess .POST content none).db.posts =
      db.posts ++ [⟨db.nextPostId, uid, content, none, nowTs⟩] ∧
    (create_post sanitize now nowTs db storage sess .POST content none).response =
      .redirect "index" := by
  simp [create_post, hauth]

theorem create_post_accepts_any_content_witness :
    (⟨some 4, some "alice", []⟩ : Session).user_id = some 4 ∧
    ((create_post (fun s => s) ⟨2024, 1, 2, 3, 4, 5⟩ 9 ⟨[], [], 1, 1⟩ []
        ⟨some 4, some "alice", []⟩ .POST "" none).db.posts =
      [] ++ [⟨1, 4, "", none, 9⟩] ∧
      (create_post (fun s => s) ⟨2024, 1, 2, 3, 4, 5⟩ 9 ⟨[], [], 1, 1⟩ []
        ⟨some 4, some "alice", []⟩ .POST "" none).response = .redirect "index") :=
  ⟨rfl,
   create_post_accepts_any_content (fun s => s) ⟨2024, 1, 2, 3, 4, 5⟩ 9 ⟨[], [], 1, 1⟩ []
     ⟨some 4, some "alice", []⟩ 4 "" rfl⟩

/-- Claim C10: a successful login overwrites the session keys user_id and
username with the values of the newly authenticated user, whatever session
was active before, and leaves every other session key in place. -/
theorem login_rebinds_session (check : String → String → Bool) (db : DB)
    (sess : Session) (username password : String) (u : User)
    (hfind : db.users.find? (fun x => x.username == username) = some u)
    (hcheck : check u.password_hash password = true) :
    (login check db sess .POST username password).sess.user_id = some u.id ∧
    (login check db sess .POST username password).sess.username = some username ∧
    (login check db sess .POST username password).sess.extra = sess.extra ∧
    (login check db sess .POST username password).response = .redirect "index" := by
  simp [login, hfind, hcheck]

theorem login_rebinds_session_witness :
    ([⟨2, "bob", "bob@x.io", "h2", 0⟩] : List User).find?
        (fun x => x.username == "bob") = some ⟨2, "bob", "bob@x.io", "h2", 0⟩ ∧
    (fun (_ _ : String) => true) "h2" "pw" = true ∧
    ((login (fun _ _ => true) ⟨[⟨2, "bob", "bob@x.io", "h2", 0⟩], [], 3, 1⟩
        ⟨some 7, some "alice", [("theme", "dark")]⟩ .POST "bob" "pw").sess.user_id = some 2 ∧
      (login (fun _ _ => true) ⟨[⟨2, "bob", "bob@x.io", "h2", 0⟩], [], 3, 1⟩
        ⟨some 7, some "alice", [("theme", "dark")]⟩ .POST "bob" "pw").sess.username = some "bob" ∧
      (login (fun _ _ => true) ⟨[⟨2, "bob", "bob@x.io", "h2", 0⟩], [], 3, 1⟩
        ⟨some 7, some "alice", [("theme", "dark")]⟩ .POST "bob" "pw").sess.extra =
        (⟨some 7, some "alice", [("theme", "dark")]⟩ : Session).extra ∧
      (login (fun _ _ => true) ⟨[⟨2, "bob", "bob@x.io", "h2", 0⟩], [], 3, 1⟩
        ⟨some 7, some "alice", [("theme", "dark")]⟩ .POST "bob" "pw").response =
        .redirect "index") :=
  ⟨by decide, rfl,
   login_rebinds_session (fun _ _ => true) ⟨[⟨2, "bob", "bob@x.io", "h2", 0⟩], [], 3, 1⟩
     ⟨some 7, some "alice", [("theme", "dark")]⟩ "bob" "pw" ⟨2, "bob", "bob@x.io", "h2", 0⟩
     (by decide) rfl⟩

/-- Claim C2: on an authenticated POST with a media upload, an allow-listed
extension gets the file written to the upload folder and referenced by the
new post, while any other filename gets the post created with
media_filename null, the upload folder untouched, and a success redirect
(never an error). -/
theorem create_post_media_allowlist (sanitize : String → String)
    (now : DateTime) (nowTs : Nat) (db : DB) (storage : List String)
    (sess : Session) (uid : Nat) (content : String) (file : Upload)
    (hauth : sess.user_id = some uid) :
    (allowed_file file.filename = true →
      (create_post sanitize now nowTs db storage sess .POST content (some file)).db.posts =
        db.posts ++ [⟨db.nextPostId, uid, content,
          some (strftime_timestamp now ++ "_" ++ sanitize file.filename), nowTs⟩] ∧
      (create_post sanitize now nowTs db storage sess .POST content (some file)).storage =
        storage ++ [strftime_timestamp now ++ "_" ++ sanitize file.filename] ∧
      (create_post sanitize now nowTs db storage sess .POST content (some file)).response =
        .redirect "index") ∧
    (allowed_file file.filename = false →
      (create_post sanitize now nowTs db storage sess .POST content (some file)).db.posts =
        db.posts ++ [⟨db.nextPostId, uid, content, none, nowTs⟩] ∧
      (create_post sanitize now nowTs db storage sess .POST content (some file)).storage =
        storage ∧
      (create_post sanitize now nowTs db storage sess .POST content (some file)).response =
        .redirect "index") := by
  constructor
  · intro hall
    have hne := allowed_file_ne_empty hall
    simp [create_post, hauth, hne, hall]
  · intro hnall
    simp [create_post, hauth, hnall]

theorem create_post_media_allowlist_witness :
    (⟨some 4, some "alice", []⟩ : Session).user_id = some 4 ∧
    ((allowed_file "cat.JPG" = true →
      (create_post (fun s => s) ⟨2024, 5, 6, 7, 8, 9⟩ 9 ⟨[], [], 1, 1⟩ []
        ⟨some 4, some "alice", []⟩ .POST "hi" (some ⟨"cat.JPG"⟩)).db.posts =
        [] ++ [⟨1, 4, "hi", some (strftime_timestamp ⟨2024, 5, 6, 7, 8, 9⟩ ++ "_" ++
          (fun (s : String) => s) "cat.JPG"), 9⟩] ∧
      (create_post (fun s => s) ⟨2024, 5, 6, 7, 8, 9⟩ 9 ⟨[], [], 1, 1⟩ []
        ⟨some 4, some "alice", []⟩ .POST "hi" (some ⟨"cat.JPG"⟩)).storage =
        [] ++ [strftime_timestamp ⟨2024, 5, 6, 7, 8, 9⟩ ++ "_" ++ (fun (s : String) => s) "cat.JPG"] ∧
      (create_post (fun s => s) ⟨2024, 5, 6, 7, 8, 9⟩ 9 ⟨[], [], 1, 1⟩ []
        ⟨some 4, some "alice", []⟩ .POST "hi" (some ⟨"cat.JPG"⟩)).response =
        .redirect "index") ∧
    (allowed_file "cat.JPG" = false →
      (create_post (fun s => s) ⟨2024, 5, 6, 7, 8, 9⟩ 9 ⟨[], [], 1, 1⟩ []
        ⟨some 4, some "alice", []⟩ .POST "hi" (some ⟨"cat.JPG"⟩)).db.posts =
        [] ++ [⟨1, 4, "hi", none, 9⟩] ∧
      (create_post (fun s => s) ⟨2024, 5, 6, 7, 8, 9⟩ 9 ⟨[], [], 1, 1⟩ []
        ⟨some 4, some "alice", []⟩ .POST "hi" (some ⟨"cat.JPG"⟩)).storage = [] ∧
      (create_post (fun s => s) ⟨2024, 5, 6, 7, 8, 9⟩ 9 ⟨[], [], 1, 1⟩ []
        ⟨some 4, some "alice", []⟩ .POST "hi" (some ⟨"cat.JPG"⟩)).response =
        .redirect "index")) :=
  ⟨rfl,
   create_post_media_allowlist (fun s => s) ⟨2024, 5, 6, 7, 8, 9⟩ 9 ⟨[], [], 1, 1⟩ []
     ⟨some 4, some "alice", []⟩ 4 "hi" ⟨"cat.JPG"⟩ rfl⟩

/-- Claim C7 evidence: config.py computes an env-overridable secret, but
app.py assigns the hard-coded literal, so the application key never equals
an overridden value. -/
theorem secret_key_env_ignored :
    Config_SECRET_KEY (fun k => if k == "SECRET_KEY" then some "prod-key" else none) =
      "prod-key" ∧
    app_secret_key = "your-secret-key-change-this-in-production" ∧
    app_secret_key ≠
      Config_SECRET_KEY (fun k => if k == "SECRET_KEY" then some "prod-key" else none) := by
  decide

/-- Claim C6 counterexample: in the register success path, if the INSERT
raises after the connection was opened, the handler never reaches close:
the connection is not released on that error path. -/
theorem register_conn_leak_on_insert_error :
    Stmt.connect ∈ (runStmts (fun s => s == Stmt.execInsert) (registerStmts false)).executed ∧
    (runStmts (fun s => s == Stmt.execInsert) (registerStmts false)).raised = true ∧
    Stmt.close ∉ (runStmts (fun s => s == Stmt.execInsert) (registerStmts false)).executed := by
  decide

/-- Claim C6 (amended): on every non-raising run, each handler body closes
its connection before responding; the guarantee does not extend to error
paths, since the bodies use no try or finally. -/
theorem conn_closed_on_normal_paths :
    scopedClose (registerStmts true) ∧ scopedClose (registerStmts false) ∧
    scopedClose indexStmts ∧ scopedClose loginStmts ∧ scopedClose createPostStmts := by
  unfold scopedClose
  decide

/-- digitChar always yields a decimal digit character. -/
theorem digitChar_isDigit (n : Nat) : (digitChar n).isDigit = true := by
  have h : n % 10 < 10 := Nat.mod_lt _ (by decide)
  have hall : ∀ m, m < 10 → (Char.ofNat (48 + m)).isDigit = true := by decide
  exact hall (n % 10) h

/-- The character list of the strftime output, spelled out. -/
theorem strftime_toList (t : DateTime) :
    (strftime_timestamp t).toList =
      [digitChar (t.year / 1000), digitChar (t.year / 100), digitChar (t.year / 10),
       digitChar t.year, digitChar (t.month / 10), digitChar t.month,
       digitChar (t.day / 10), digitChar t.day, '_',
       digitChar (t.hour / 10), digitChar t.hour, digitChar (t.minute / 10),
       digitChar t.minute, digitChar (t.second / 10), digitChar t.second] := rfl

/-- The strftime output always has the exact shape YYYYMMDD_HHMMSS. -/
theorem strftime_shape (t : DateTime) : timestampShape (strftime_timestamp t) := by
  refine ⟨?_, ?_, ?_⟩
  · rw [strftime_toList]
    rfl
  · rw [strftime_toList]
    rfl
  · intro i hi hne
    rw [strftime_toList]
    interval_cases i <;> first | exact absurd rfl hne | exact digitChar_isDigit _

/-- Claim C8: an accepted upload is stored under the sanitized declared
filename prefixed by the YYYYMMDD_HHMMSS timestamp and one underscore, the
new post row references exactly that name, and the save of the file comes
before the insert of the row in the effect trace. -/
theorem create_post_media_timestamped (sanitize : String → String)
    (now : DateTime) (nowTs : Nat) (db : DB) (storage : List String)
    (sess : Session) (uid : Nat) (content : String) (file : Upload)
    (hauth : sess.user_id = some uid)
    (hall : allowed_file file.filename = true) :
    (create_post sanitize now nowTs db storage sess .POST content (some file)).db.posts =
      db.posts ++ [⟨db.nextPostId, uid, content,
        some (strftime_timestamp now ++ "_" ++ sanitize file.filename), nowTs⟩] ∧
    timestampShape (strftime_timestamp now) ∧
    (create_post sanitize now nowTs db storage sess .POST content (some file)).events =
      [Event.fileSave (strftime_timestamp now ++ "_" ++ sanitize file.filename),
       Event.insertPost uid content
         (some (strftime_timestamp now ++ "_" ++ sanitize file.filename))] := by
  have hne := allowed_file_ne_empty hall
  refine ⟨?_, strftime_shape now, ?_⟩ <;> simp [create_post, hauth, hne, hall]

theorem create_post_media_timestamped_witness :
    (⟨some 4, some "alice", []⟩ : Session).user_id = some 4 ∧
    allowed_file "cat.png" = true ∧
    ((create_post (fun s => s) ⟨2024, 5, 6, 7, 8, 9⟩ 9 ⟨[], [], 1, 1⟩ []
        ⟨some 4, some "alice", []⟩ .POST "hi" (some ⟨"cat.png"⟩)).db.posts =
      [] ++ [⟨1, 4, "hi", some (strftime_timestamp ⟨2024, 5, 6, 7, 8, 9⟩ ++ "_" ++
        (fun (s : String) => s) "cat.png"), 9⟩] ∧
      timestampShape (strftime_timestamp ⟨2024, 5, 6, 7, 8, 9⟩) ∧
      (create_post (fun s => s) ⟨2024, 5, 6, 7, 8, 9⟩ 9 ⟨[], [], 1, 1⟩ []
        ⟨some 4, some "alice", []⟩ .POST "hi" (some ⟨"cat.png"⟩)).events =
      [Event.fileSave (strftime_timestamp ⟨2024, 5, 6, 7, 8, 9⟩ ++ "_" ++
         (fun (s : String) => s) "cat.png"),
       Event.insertPost 4 "hi" (some (strftime_timestamp ⟨2024, 5, 6, 7, 8, 9⟩ ++ "_" ++
         (fun (s : String) => s) "cat.png"))]) :=
  ⟨rfl, by decide,
   create_post_media_timestamped (fun s => s) ⟨2024, 5, 6, 7, 8, 9⟩ 9 ⟨[], [], 1, 1⟩ []
     ⟨some 4, some "alice", []⟩ 4 "hi" ⟨"cat.png"⟩ rfl (by decide)⟩

/-- Claim C3: every post whose author is in the users table appears in the
feed joined with the username of that author, and the feed is ordered
non-increasing by created_at. -/
theorem list_feed_complete_and_sorted (db : DB) (p : Post) (u : User)
    (hp : p ∈ db.posts) (hu : u ∈ db.users) (hid : u.id = p.user_id) :
    (⟨p.id, p.content, p.media_filename, p.created_at, u.username⟩ : PostView) ∈ list_feed db ∧
    (list_feed db).Sorted feedLE := by
  constructor
  · have hmem : (⟨p.id, p.content, p.media_filename, p.created_at, u.username⟩ : PostView) ∈
        joinRows db := by
      unfold joinRows
      refine List.mem_flatMap.mpr ⟨p, hp, ?_⟩
      exact List.mem_map.mpr ⟨u, List.mem_filter.mpr ⟨hu, by simp [hid]⟩, rfl⟩
    exact ((List.perm_insertionSort feedLE (joinRows db)).mem_iff).mpr hmem
  · exact List.sorted_insertionSort feedLE (joinRows db)

theorem list_feed_complete_and_sorted_witness :
    (⟨1, 1, "hello", none, 10⟩ : Post) ∈
      (⟨[⟨1, "alice", "a@x.io", "h1", 0⟩], [⟨1, 1, "hello", none, 10⟩], 2, 2⟩ : DB).posts ∧
    (⟨1, "alice", "a@x.io", "h1", 0⟩ : User) ∈
      (⟨[⟨1, "alice", "a@x.io", "h1", 0⟩], [⟨1, 1, "hello", none, 10⟩], 2, 2⟩ : DB).users ∧
    (⟨1, "alice", "a@x.io", "h1", 0⟩ : User).id = (⟨1, 1, "hello", none, 10⟩ : Post).user_id ∧
    ((⟨1, "hello", none, 10, "alice"⟩ : PostView) ∈
      list_feed ⟨[⟨1, "alice", "a@x.io", "h1", 0⟩], [⟨1, 1, "hello", none, 10⟩], 2, 2⟩ ∧
     (list_feed ⟨[⟨1, "alice", "a@x.io", "h1", 0⟩], [⟨1, 1, "hello", none, 10⟩], 2, 2⟩).Sorted
       feedLE) :=
  ⟨by decide, by decide, rfl,
   list_feed_complete_and_sorted
     ⟨[⟨1, "alice", "a@x.io", "h1", 0⟩], [⟨1, 1, "hello", none, 10⟩], 2, 2⟩
     ⟨1, 1, "hello", none, 10⟩ ⟨1, "alice", "a@x.io", "h1", 0⟩ (by decide) (by decide) rfl⟩

/-- In a list of users with pairwise distinct usernames (the UNIQUE
constraint of the users table), two members with the same username are the
same row. -/
theorem username_unique_eq {l : List User}
    (h : l.Pairwise (fun a b => a.username ≠ b.username)) {u v : User}
    (hu : u ∈ l) (hv : v ∈ l) (huv : u.username = v.username) : u = v := by
  induction l with
  | nil => cases hu
  | cons a t ih =>
    rcases List.pairwise_cons.mp h with ⟨ha, ht⟩
    rcases List.mem_cons.mp hu with hua | hut
    · rcases List.mem_cons.mp hv with hva | hvt
      · exact hua.trans hva.symm
      · subst hua
        exact absurd huv (ha v hvt)
    · rcases List.mem_cons.mp hv with hva | hvt
      · subst hva
        exact absurd huv.symm (ha u hut)
      · exact ih ht hut hvt

/-- Claim C5: with usernames unique, a login POST re-renders the form with
the invalid-credentials flash exactly when no user row has the submitted
username or the password fails verification against the stored hash of the
row that has it; when the row exists and the password verifies, the session
is bound to the id of that row and the submitted username and the handler
redirects to the feed. -/
theorem login_invalid_iff (check : String → String → Bool) (db : DB)
    (sess : Session) (username password : String)
    (huniq : db.users.Pairwise (fun a b => a.username ≠ b.username)) :
    ((login check db sess .POST username password).response = .render "login.html" ↔
      (¬ ∃ u ∈ db.users, u.username = username) ∨
        ∃ u ∈ db.users, u.username = username ∧ check u.password_hash password = false) ∧
    ∀ u ∈ db.users, u.username = username → check u.password_hash password = true →
      (login check db sess .POST username password).sess.user_id = some u.id ∧
      (login check db sess .POST username password).sess.username = some username ∧
      (login check db sess .POST username password).response = .redirect "index" := by
  cases hfind : db.users.find? (fun x => x.username == username) with
  | none =>
    have hnone : ∀ v ∈ db.users, v.username ≠ username := by
      intro v hv
      have hb := List.find?_eq_none.mp hfind v hv
      simpa using hb
    have hresp : (login check db sess .POST username password).response =
        .render "login.html" := by
      simp [login, hfind]
    refine ⟨?_, ?_⟩
    · rw [hresp]
      constructor
      · intro _
        refine Or.inl ?_
        rintro ⟨v, hv, hveq⟩
        exact hnone v hv hveq
      · intro _
        rfl
    · intro v hv hveq _
      exact absurd hveq (hnone v hv)
  | some u =>
    have hu_mem : u ∈ db.users := List.mem_of_find?_eq_some hfind
    have hu_name : u.username = username := by
      have hb := List.find?_some hfind
      simpa using hb
    by_cases hc : check u.password_hash password = true
    · have hresp : (login check db sess .POST username password).response =
          .redirect "index" := by
        simp [login, hfind, hc]
      refine ⟨?_, ?_⟩
      · rw [hresp]
        constructor
        · intro habs
          exact Response.noConfusion habs
        · rintro (hno | ⟨v, hv, hveq, hvf⟩)
          · exact absurd ⟨u, hu_mem, hu_name⟩ hno
          · have hvu : v = u := username_unique_eq huniq hv hu_mem (hveq.trans hu_name.symm)
            subst hvu
            exact absurd hc (by simp [hvf])
      · intro v hv hveq hvcheck
        have hvu : v = u := username_unique_eq huniq hv hu_mem (hveq.trans hu_name.symm)
        subst hvu
        simp [login, hfind, hvcheck, hu_name]
    · have hcf : check u.password_hash password = false := by
        simpa using hc
      have hresp : (login check db sess .POST username password).response =
          .render "login.html" := by
        simp [login, hfind, hcf]
      refine ⟨?_, ?_⟩
      · rw [hresp]
        constructor
        · intro _
          exact Or.inr ⟨u, hu_mem, hu_name, hcf⟩
        · intro _
          rfl
      · intro v hv hveq hvcheck
        have hvu : v = u := username_unique_eq huniq hv hu_mem (hveq.trans hu_name.symm)
        subst hvu
        exact absurd hvcheck (by simp [hcf])

theorem login_invalid_iff_witness :
    ([⟨1, "alice", "a@x.io", "h1", 0⟩, ⟨2, "bob", "bob@x.io", "h2", 0⟩] : List User).Pairwise
      (fun a b => a.username ≠ b.username) ∧
    (((login (fun h p => h == "h" ++ p)
        ⟨[⟨1, "alice", "a@x.io", "h1", 0⟩, ⟨2, "bob", "bob@x.io", "h2", 0⟩], [], 3, 1⟩
        ⟨none, none, []⟩ .POST "bob" "2").response = .render "login.html" ↔
      (¬ ∃ u ∈ ([⟨1, "alice", "a@x.io", "h1", 0⟩, ⟨2, "bob", "bob@x.io", "h2", 0⟩] : List User),
          u.username = "bob") ∨
        ∃ u ∈ ([⟨1, "alice", "a@x.io", "h1", 0⟩, ⟨2, "bob", "bob@x.io", "h2", 0⟩] : List User),
          u.username = "bob" ∧ ((fun (h p : String) => h == "h" ++ p) u.password_hash "2") = false) ∧
    ∀ u ∈ ([⟨1, "alice", "a@x.io", "h1", 0⟩, ⟨2, "bob", "bob@x.io", "h2", 0⟩] : List User),
      u.username = "bob" → ((fun (h p : String) => h == "h" ++ p) u.password_hash "2") = true →
      (login (fun h p => h == "h" ++ p)
        ⟨[⟨1, "alice", "a@x.io", "h1", 0⟩, ⟨2, "bob", "bob@x.io", "h2", 0⟩], [], 3, 1⟩
        ⟨none, none, []⟩ .POST "bob" "2").sess.user_id = some u.id ∧
      (login (fun h p => h == "h" ++ p)
        ⟨[⟨1, "alice", "a@x.io", "h1", 0⟩, ⟨2, "bob", "bob@x.io", "h2", 0⟩], [], 3, 1⟩
        ⟨none, none, []⟩ .POST "bob" "2").sess.username = some "bob" ∧
      (login (fun h p => h == "h" ++ p)
        ⟨[⟨1, "alice", "a@x.io", "h1", 0⟩, ⟨2, "bob", "bob@x.io", "h2", 0⟩], [], 3, 1⟩
        ⟨none, none, []⟩ .POST "bob" "2").response = .redirect "index") :=
  ⟨by decide,
   login_invalid_iff (fun h p => h == "h" ++ p)
     ⟨[⟨1, "alice", "a@x.io", "h1", 0⟩, ⟨2, "bob", "bob@x.io", "h2", 0⟩], [], 3, 1⟩
     ⟨none, none, []⟩ "bob" "2" (by decide)⟩

end Voar
